import Mathlib

/-!
Verification development for the `hirust-resp` crate (src/lib.rs): a
response-envelope and error-signaling layer for actix-web HTTP services.

The embedding below translates the crate's data model and operations:
* `Response<T>` (the JSON envelope `code` / `data` / `msg`) and its
  `Responder::respond_to` conversion (HTTP 200, `application/json`,
  body = `serde_json::to_string`);
* the envelope constructors `success`, `error`, `unauthorized`;
* `ErrorCode` (i64 code, static template message), its `tips` template
  substitution (Rust `str::replace`, all occurrences), `throw`,
  `throw_tips` (note the `as i32` truncating cast on the code), its
  `Display` form and its `ResponseError` implementation (HTTP 400,
  `text/html`);
* the `Error` carrier (`file`, `line`, `message`) with the derived
  `Display` `"{file}:{line} {message}"` and actix-web's *default*
  `ResponseError` implementation (HTTP 500, `text/plain; charset=utf-8`,
  body = the `Display` rendering).

Machine integers: `i64` and `i32` are modelled as `Int`; the single place
the crate performs a narrowing conversion (`ec.code() as i32`) is modelled
by `wrapI32`, the two's-complement reduction into `[-2^31, 2^31)`.
`u32` (`Error.line`) is modelled as `Nat`; it is only displayed, never
subject to arithmetic.
-/

/-- A JSON value as emitted by the serde serializers this crate relies on.
`raw` stands for a generic payload whose serialized JSON text is supplied
abstractly (the `serde_json` serializer delegates to the payload's own
`Serialize` implementation and splices its output in place). -/
inductive Json where
  | null : Json
  | int : Int → Json
  | str : String → Json
  | raw : String → Json
deriving DecidableEq

/-- Lower-case hexadecimal digit, as used by `serde_json`'s `\u00XX` escapes. -/
def hexDigitChar (n : Nat) : Char :=
  if n < 10 then Char.ofNat (48 + n) else Char.ofNat (87 + n)

/-- `serde_json`'s escaping of a single character inside a JSON string:
`"` and `\` get a backslash, the named control escapes are used for
backspace, tab, newline, form feed and carriage return, any other control
character below 0x20 becomes `\u00XX` (lower-case hex), and every other
character is emitted verbatim. -/
def escapeChar (c : Char) : String :=
  if c = '"' then "\\\""
  else if c = '\\' then "\\\\"
  else if c = '\x08' then "\\b"
  else if c = '\t' then "\\t"
  else if c = '\n' then "\\n"
  else if c = '\x0c' then "\\f"
  else if c = '\r' then "\\r"
  else if c.toNat < 32 then
    "\\u00" ++ String.mk [hexDigitChar (c.toNat / 16), hexDigitChar (c.toNat % 16)]
  else String.mk [c]

/-- `serde_json` escaping of a whole string (character by character). -/
def escapeString (s : String) : String :=
  String.join (s.data.map escapeChar)

/-- A JSON string literal: quote, escaped contents, quote. -/
def jsonString (s : String) : String :=
  "\"" ++ escapeString s ++ "\""

/-- Rendering of a JSON scalar to its wire text. -/
def Json.render : Json → String
  | .null => "null"
  | .int n => toString n
  | .str s => jsonString s
  | .raw s => s

/-- One `"key":value` pair of a serialized JSON object. -/
def renderField (kv : String × Json) : String :=
  jsonString kv.1 ++ ":" ++ kv.2.render

/-- Comma-separated join, as `serde_json` writes consecutive object fields. -/
def joinComma : List String → String
  | [] => ""
  | [x] => x
  | x :: y :: xs => x ++ "," ++ joinComma (y :: xs)

/-- A serialized JSON object: `{` fields `}` with fields in the given order
(serde serializes struct fields in declaration order). -/
def renderObj (fields : List (String × Json)) : String :=
  "\x7b" ++ joinComma (fields.map renderField) ++ "\x7d"

/-- The content types this crate puts on responses: `ContentType::json()`
(`application/json`), `ContentType::html()` (`text/html; charset=utf-8`),
and the `text/plain; charset=utf-8` used by actix-web's default
`ResponseError::error_response`. -/
inductive ContentType where
  | json : ContentType
  | html : ContentType
  | plainTextUtf8 : ContentType
deriving DecidableEq

/-- The full mime string of each content type. -/
def ContentType.mime : ContentType → String
  | .json => "application/json"
  | .html => "text/html; charset=utf-8"
  | .plainTextUtf8 => "text/plain; charset=utf-8"

/-- The essence (type/subtype without parameters) of each content type. -/
def ContentType.essence : ContentType → String
  | .json => "application/json"
  | .html => "text/html"
  | .plainTextUtf8 => "text/plain"

/-- A concrete wire response: transport status, content-type header, body.
Models the `HttpResponse` values this crate builds. -/
structure HttpResponse where
  status : Nat
  contentType : ContentType
  body : String
deriving DecidableEq

/-- The envelope `Response<T>` (src/lib.rs lines 131-139): fields `code`
(an `i32`), `data` (`Option<T>`), `msg` (`String`), serialized by serde in
this declaration order. -/
structure Response (T : Type) where
  code : Int
  data : Option T
  msg : String
deriving DecidableEq

/-- serde serialization of an `Option` payload: `None` is `null`, `Some v`
delegates to the payload serializer `serT`. -/
def serOptionJson {T : Type} (serT : T → String) : Option T → Json
  | none => Json.null
  | some v => Json.raw (serT v)

/-- The field sequence the derived `Serialize` for `Response<T>` emits:
`code`, `data`, `msg`, in declaration order. -/
def Response.fields {T : Type} (serT : T → String) (r : Response T) :
    List (String × Json) :=
  [("code", Json.int r.code), ("data", serOptionJson serT r.data),
   ("msg", Json.str r.msg)]

/-- `Response::body_json` (src/lib.rs lines 162-164):
`serde_json::to_string(&self)`. -/
def Response.body_json {T : Type} (serT : T → String) (r : Response T) : String :=
  renderObj (r.fields serT)

/-- `impl Responder for Response<T>::respond_to` (src/lib.rs lines 148-155):
`HttpResponse::Ok()` (status 200) with `ContentType::json()` and the
`serde_json` serialization of the envelope as body. -/
def Response.respond_to {T : Type} (serT : T → String) (r : Response T) :
    HttpResponse :=
  { status := 200, contentType := ContentType.json, body := r.body_json serT }

/-- `impl ResponseError for Response<T>::status_code` (src/lib.rs line 194):
`StatusCode::OK`. -/
def Response.status_code {T : Type} (_ : Response T) : Nat := 200

/-- `impl ResponseError for Response<T>::error_response`
(src/lib.rs lines 182-186): status from `status_code`, JSON content type,
body from the `Display` implementation (which is the serde serialization). -/
def Response.error_response {T : Type} (serT : T → String) (r : Response T) :
    HttpResponse :=
  { status := r.status_code, contentType := ContentType.json,
    body := r.body_json serT }

/-- The derived `Default` for `Response<T>`: `code = 0`, `data = None`,
`msg = ""`. -/
def Response.defaultValue (T : Type) : Response T :=
  { code := 0, data := none, msg := "" }

/-- serde serialization of a `String` payload. -/
def serString (s : String) : String := jsonString s

/-- `success` (src/lib.rs lines 17-23): envelope with the given payload,
`msg = "成功"` ("success"), `code = 200`. -/
def success {T : Type} (data : Option T) : Response T :=
  { code := 200, data := data, msg := "成功" }

/-- `success_respond_to` (src/lib.rs lines 33-38): `success` immediately
converted to a wire response. -/
def success_respond_to {T : Type} (serT : T → String) (data : Option T) :
    HttpResponse :=
  (success data).respond_to serT

/-- `error` (src/lib.rs lines 48-54): envelope with the given payload,
`msg = "失败"` ("failure"), remaining fields from `Default::default()`, so
`code = 0`. -/
def error {T : Type} (data : Option T) : Response T :=
  { Response.defaultValue T with data := data, msg := "失败" }

/-- `error_respond_to` (src/lib.rs lines 64-69): `error` immediately
converted to a wire response. -/
def error_respond_to {T : Type} (serT : T → String) (data : Option T) :
    HttpResponse :=
  (error data).respond_to serT

/-- `unauthorized` (src/lib.rs lines 120-129): builds a fixed
`Response<String>` with `data = None`, `msg = "无权限访问"` ("no
permission"), `code` from `Default::default()` (0), and converts it; the
type parameter `T` from the Rust signature is never used in the result. -/
def unauthorized (T : Type) : HttpResponse :=
  (Response.mk 0 (none : Option String) "无权限访问").respond_to serString

/-- Replace every left-to-right non-overlapping occurrence of the two
character pattern `%s` by `rep`, leaving everything else in place. This is
Rust's `str::replace(self, "%s", rep)` specialized to the only pattern the
crate uses: scan the text; whenever the next two characters are `%s`, emit
`rep` and continue after them; otherwise emit one character and continue. -/
def replacePS (rep : List Char) : List Char → List Char
  | [] => []
  | [c] => [c]
  | c :: c2 :: cs =>
    if c = '%' ∧ c2 = 's' then rep ++ replacePS rep cs
    else c :: replacePS rep (c2 :: cs)

/-- Whether the two character pattern `%s` occurs somewhere in the text. -/
def psOccurs : List Char → Bool
  | [] => false
  | [_] => false
  | c :: c2 :: cs => (c = '%' && c2 = 's') || psOccurs (c2 :: cs)

/-- `message.replace("%s", tips)` at the `String` level. The trailing
`.parse::<String>().unwrap()` in the source is the identity (parsing a
string as `String` is infallible). -/
def strReplacePS (s tips : String) : String :=
  String.mk (replacePS tips.data s.data)

/-- The two's-complement `i64 as i32` narrowing cast: reduce modulo `2^32`
and pick the representative in `[-2^31, 2^31)`. -/
def wrapI32 (n : Int) : Int :=
  let m := n % 4294967296
  if m < 2147483648 then m else m - 4294967296

/-- `ErrorCode` (src/lib.rs lines 198-202): a catalogued numeric code
(`i64`) paired with a static template message. The Rust getters `code()`
and `message()` are the field projections. -/
structure ErrorCode where
  code : Int
  message : String
deriving DecidableEq

/-- `ErrorCode::new` (src/lib.rs lines 206-208). -/
def ErrorCode.new (code : Int) (message : String) : ErrorCode :=
  { code := code, message := message }

/-- `ErrorCode::code_string` (src/lib.rs lines 216-218):
`Some(format!("{}", self.code))`. -/
def ErrorCode.code_string (ec : ErrorCode) : Option String :=
  some (toString ec.code)

/-- `ErrorCode::tips` (src/lib.rs lines 235-237):
`self.message().replace("%s", tips).parse().unwrap()`. -/
def ErrorCode.tips (ec : ErrorCode) (tips : String) : String :=
  strReplacePS ec.message tips

/-- The derived `Serialize` for `ErrorCode`: object with fields `code`
(integer) and `message` (string), in declaration order. Used as the
payload serializer of `Response<ErrorCode>`. -/
def serErrorCode (ec : ErrorCode) : String :=
  renderObj [("code", Json.int ec.code), ("message", Json.str ec.message)]

/-- The envelope literal built inside `throw` (src/lib.rs lines 83-87 and
274-278): `data: None`, `msg` the raw template, `code: ec.code() as i32`. -/
def throwEnvelope (ec : ErrorCode) : Response ErrorCode :=
  { code := wrapI32 ec.code, data := none, msg := ec.message }

/-- The envelope literal built inside `throw_tips` (src/lib.rs lines
104-108 and 253-257): `data: None`,
`msg: ec.message().replace("%s", tips)`, `code: ec.code() as i32`. -/
def throwTipsEnvelope (ec : ErrorCode) (tips : String) : Response ErrorCode :=
  { code := wrapI32 ec.code, data := none, msg := strReplacePS ec.message tips }

/-- The free function `throw` (src/lib.rs lines 79-89): build the envelope
and convert it with `respond_to`. -/
def throw (ec : ErrorCode) : HttpResponse :=
  (throwEnvelope ec).respond_to serErrorCode

/-- The method `ErrorCode::throw` (src/lib.rs lines 270-280), body
identical to the free function `throw`. -/
def ErrorCode.throw (ec : ErrorCode) : HttpResponse :=
  (throwEnvelope ec).respond_to serErrorCode

/-- The free function `throw_tips` (src/lib.rs lines 99-110): build the
substituted envelope and convert it with `respond_to`. -/
def throw_tips (ec : ErrorCode) (tips : String) : HttpResponse :=
  (throwTipsEnvelope ec tips).respond_to serErrorCode

/-- The method `ErrorCode::throw_tips` (src/lib.rs lines 248-259), body
identical to the free function `throw_tips`. -/
def ErrorCode.throw_tips (ec : ErrorCode) (tips : String) : HttpResponse :=
  (throwTipsEnvelope ec tips).respond_to serErrorCode

/-- `impl Display for ErrorCode` (src/lib.rs lines 283-287):
`write!(f, "({}, {})", self.code, self.message)`. -/
def ErrorCode.toDisplay (ec : ErrorCode) : String :=
  "(" ++ toString ec.code ++ ", " ++ ec.message ++ ")"

/-- `impl ResponseError for ErrorCode::status_code` (src/lib.rs line 302):
`StatusCode::BAD_REQUEST` (400). -/
def ErrorCode.status_code (_ : ErrorCode) : Nat := 400

/-- `impl ResponseError for ErrorCode::error_response`
(src/lib.rs lines 290-294): status from `status_code`,
`ContentType::html()`, body from the `Display` implementation. -/
def ErrorCode.error_response (ec : ErrorCode) : HttpResponse :=
  { status := ec.status_code, contentType := ContentType.html,
    body := ec.toDisplay }

/-- `Error` (src/lib.rs lines 322-329): the uncaught-failure carrier with a
source file, line (`u32`) and message, deriving
`Display("{file}:{line} {message}")`. -/
structure Error where
  file : String
  line : Nat
  message : String
deriving DecidableEq

/-- `Error::new` (src/lib.rs lines 362-368). -/
def Error.new (file : String) (line : Nat) (message : String) : Error :=
  { file := file, line := line, message := message }

/-- The derived `Display` of `Error` (src/lib.rs line 323):
`"{file}:{line} {message}"`. -/
def Error.toDisplay (e : Error) : String :=
  e.file ++ ":" ++ toString e.line ++ " " ++ e.message

/-- `impl ResponseError for Error {}` (src/lib.rs line 372) uses actix-web's
default `status_code`, which is `StatusCode::INTERNAL_SERVER_ERROR` (500). -/
def Error.status_code (_ : Error) : Nat := 500

/-- `impl ResponseError for Error {}` (src/lib.rs line 372) uses actix-web's
default `error_response`: a response with the default status code (500),
`Content-Type: text/plain; charset=utf-8`, and the value's `Display`
rendering as body. -/
def Error.error_response (e : Error) : HttpResponse :=
  { status := e.status_code, contentType := ContentType.plainTextUtf8,
    body := e.toDisplay }

/-! ## Helper lemmas -/

/-- String concatenation is associative. -/
theorem string_append_assoc (a b c : String) : a ++ b ++ c = a ++ (b ++ c) := by
  show String.mk (a.data ++ b.data ++ c.data) = String.mk (a.data ++ (b.data ++ c.data))
  rw [List.append_assoc]

/-- Closed form of the serialized envelope body: `code`, `data`, `msg`, in
that order, with the `data` slot rendered by the `Option` serializer. -/
theorem Response.body_json_eq {T : Type} (serT : T → String) (r : Response T) :
    r.body_json serT =
      "\x7b\"code\":" ++ (toString r.code ++ (",\"data\":" ++
        ((serOptionJson serT r.data).render ++ (",\"msg\":\"" ++
          (escapeString r.msg ++ "\"\x7d"))))) := by
  simp only [Response.body_json, Response.fields, renderObj, List.map, joinComma,
    renderField, Json.render, jsonString, string_append_assoc]
  rfl

/-- A text without any `%s` occurrence is left unchanged by `replacePS`. -/
theorem replacePS_of_not_psOccurs (rep : List Char) :
    ∀ l, psOccurs l = false → replacePS rep l = l
  | [], _ => rfl
  | [c], _ => rfl
  | c :: c2 :: cs, h => by
    simp only [psOccurs, Bool.or_eq_false_iff, Bool.and_eq_false_iff] at h
    have hne : ¬ (c = '%' ∧ c2 = 's') := by
      rcases h.1 with h1 | h1
      · exact fun hc => by simp [hc.1] at h1
      · exact fun hc => by simp [hc.2] at h1
    rw [replacePS, if_neg hne, replacePS_of_not_psOccurs rep (c2 :: cs) h.2]

/-- Stepping `replacePS` over the leftmost `%s` occurrence: a `%s`-free
prefix is copied verbatim, the occurrence becomes `rep`, and replacement
continues on the remainder. -/
theorem replacePS_append (rep rest : List Char) :
    ∀ a, psOccurs a = false →
      replacePS rep (a ++ '%' :: 's' :: rest) = a ++ (rep ++ replacePS rep rest)
  | [], _ => by
    rw [List.nil_append, List.nil_append, replacePS, if_pos ⟨rfl, rfl⟩]
  | [c], _ => by
    have hne : ¬ (c = '%' ∧ ('%' : Char) = 's') := fun hc => by
      exact absurd hc.2 (by decide)
    rw [List.singleton_append, replacePS, if_neg hne, replacePS, if_pos ⟨rfl, rfl⟩]
    rfl
  | c :: c2 :: cs, h => by
    simp only [psOccurs, Bool.or_eq_false_iff, Bool.and_eq_false_iff] at h
    have hne : ¬ (c = '%' ∧ c2 = 's') := by
      rcases h.1 with h1 | h1
      · exact fun hc => by simp [hc.1] at h1
      · exact fun hc => by simp [hc.2] at h1
    show replacePS rep (c :: c2 :: (cs ++ '%' :: 's' :: rest)) = _
    rw [replacePS, if_neg hne]
    have step := replacePS_append rep rest (c2 :: cs) h.2
    rw [List.cons_append] at step
    rw [step]
    rfl

/-! ## Claim theorems -/

/-- C1: converting any envelope with `respond_to` yields HTTP status 200
regardless of the logical `code` field, sets the `application/json`
content type, and produces as body the JSON serialization of the envelope
with fields in the order `code`, `data`, `msg`, where an absent `data`
renders as JSON `null`. -/
theorem respond_to_wire_contract {T : Type} (serT : T → String) (r : Response T) :
    (r.respond_to serT).status = 200 ∧
    (r.respond_to serT).contentType = ContentType.json ∧
    ContentType.json.mime = "application/json" ∧
    (r.respond_to serT).body =
      "\x7b\"code\":" ++ (toString r.code ++ (",\"data\":" ++
        ((serOptionJson serT r.data).render ++ (",\"msg\":\"" ++
          (escapeString r.msg ++ "\"\x7d"))))) ∧
    (serOptionJson serT (none : Option T)).render = "null" :=
  ⟨rfl, rfl, rfl, Response.body_json_eq serT r, rfl⟩

/-- C2 counterexample: the uncaught-failure carrier built from
`("x.src", 42, "boom")` does render the body `"x.src:42 boom"`, but its
wire response does not carry HTTP status 400 with content type
`text/html`: the crate delegates to actix-web's default `ResponseError`
implementation, which uses 500 and `text/plain; charset=utf-8`. -/
theorem error_carrier_not_400_html :
    (Error.new "x.src" 42 "boom").error_response.body = "x.src:42 boom" ∧
    ¬ ((Error.new "x.src" 42 "boom").error_response.status = 400 ∧
       (Error.new "x.src" 42 "boom").error_response.contentType = ContentType.html) :=
  ⟨rfl, by decide⟩

/-- C2 amended: converting an `Error` built from (file, line, message)
yields the plain body `"{file}:{line} {message}"` with HTTP status 500 and
content type `text/plain; charset=utf-8` (actix-web's default
`ResponseError` implementation). -/
theorem error_carrier_default_response (file : String) (line : Nat) (message : String) :
    (Error.new file line message).error_response =
      { status := 500, contentType := ContentType.plainTextUtf8,
        body := file ++ ":" ++ toString line ++ " " ++ message } := rfl

/-- C3 counterexample: for the error code 2147483648 (= 2^31, outside the
`i32` range) with template `"m"`, the envelope built by `throw` does not
carry `code` equal to `ec.code()`: the `as i32` cast wraps it to
-2147483648. -/
theorem throw_out_of_range_code_cex :
    ¬ ((throwEnvelope (ErrorCode.new 2147483648 "m")).data = none ∧
       (throwEnvelope (ErrorCode.new 2147483648 "m")).msg = "m" ∧
       (throwEnvelope (ErrorCode.new 2147483648 "m")).code =
         (ErrorCode.new 2147483648 "m").code) := by decide

/-- C3 amended: `throw ec` converts, via `respond_to`, an envelope with
`data` absent, `msg` the raw template with any `%s` left unsubstituted,
and `code` equal to `ec.code()` cast to `i32`; the stored code equals
`ec.code()` exactly when the latter lies within the `i32` range. -/
theorem throw_spec (ec : ErrorCode) :
    throw ec = (throwEnvelope ec).respond_to serErrorCode ∧
    ErrorCode.throw ec = throw ec ∧
    (throwEnvelope ec).data = none ∧
    (throwEnvelope ec).msg = ec.message ∧
    (throwEnvelope ec).code = wrapI32 ec.code ∧
    (-2147483648 ≤ ec.code → ec.code < 2147483648 →
      (throwEnvelope ec).code = ec.code) := by
  refine ⟨rfl, rfl, rfl, rfl, rfl, fun h1 h2 => ?_⟩
  show wrapI32 ec.code = ec.code
  simp only [wrapI32]
  split <;> omega

/-- C3 witness: the amended theorem applied to the in-range error code
(1001, "missing %s"). -/
theorem throw_spec_witness :
    (throwEnvelope (ErrorCode.new 1001 "missing %s")).code = 1001 :=
  (throw_spec (ErrorCode.new 1001 "missing %s")).2.2.2.2.2 (by decide) (by decide)

/-- C4: `tips` returns the template with every occurrence of the literal
token `%s` replaced by the argument: a template without `%s` is returned
unchanged, and a template starting with a `%s`-free prefix followed by a
`%s` has that prefix kept, the occurrence substituted, and the replacement
continued on the remainder. -/
theorem tips_substitutes_all_occurrences (ec : ErrorCode) (r : String) :
    (psOccurs ec.message.data = false → ec.tips r = ec.message) ∧
    (∀ a rest : List Char, psOccurs a = false →
      ec.message.data = a ++ '%' :: 's' :: rest →
      (ec.tips r).data = a ++ (r.data ++ replacePS r.data rest)) := by
  constructor
  · intro h
    show String.mk (replacePS r.data ec.message.data) = ec.message
    rw [replacePS_of_not_psOccurs r.data ec.message.data h]
  · intro a rest ha hm
    show replacePS r.data ec.message.data = a ++ (r.data ++ replacePS r.data rest)
    rw [hm, replacePS_append r.data rest a ha]

/-- C4 witness: on the template `"a%sb%sc"` with replacement `"X"`, the
theorem instantiates to the prefix decomposition, and indeed both
occurrences are substituted: the result is `"aXbXc"`. -/
theorem tips_substitutes_all_occurrences_witness :
    psOccurs "a".data = false ∧
    ((ErrorCode.new 7 "a%sb%sc").tips "X").data =
      "a".data ++ ("X".data ++ replacePS "X".data "b%sc".data) ∧
    (ErrorCode.new 7 "a%sb%sc").tips "X" = "aXbXc" :=
  ⟨by decide,
   (tips_substitutes_all_occurrences (ErrorCode.new 7 "a%sb%sc") "X").2
     "a".data "b%sc".data (by decide) (by decide),
   by decide⟩

/-- C5 counterexample: for the error code 2147483648 (= 2^31, outside the
`i32` range), the envelope built by `throw_tips` does not carry `code`
equal to `ec.code()`: the `as i32` cast wraps it to -2147483648. -/
theorem throw_tips_out_of_range_code_cex :
    ¬ ((throwTipsEnvelope (ErrorCode.new 2147483648 "m %s") "x").code =
        (ErrorCode.new 2147483648 "m %s").code) := by decide

/-- C5 amended: `throw_tips ec r` produces the same wire response as
`throw ec` except that the envelope's message is `ec.tips r` (the template
with `%s` substituted by `r`), so `data` is absent and `code` is
`ec.code()` cast to `i32` (equal to `ec.code()` when within `i32`
range). -/
theorem throw_tips_spec (ec : ErrorCode) (r : String) :
    throw_tips ec r = (throwTipsEnvelope ec r).respond_to serErrorCode ∧
    ErrorCode.throw_tips ec r = throw_tips ec r ∧
    throwTipsEnvelope ec r = { throwEnvelope ec with msg := ec.tips r } ∧
    (throwTipsEnvelope ec r).msg = ec.tips r ∧
    (throwTipsEnvelope ec r).data = none ∧
    (-2147483648 ≤ ec.code → ec.code < 2147483648 →
      (throwTipsEnvelope ec r).code = ec.code) := by
  refine ⟨rfl, rfl, rfl, rfl, rfl, fun h1 h2 => ?_⟩
  show wrapI32 ec.code = ec.code
  simp only [wrapI32]
  split <;> omega

/-- C5 witness: the amended theorem applied to the in-range error code
(1001, "missing %s") with replacement "user". -/
theorem throw_tips_spec_witness :
    (throwTipsEnvelope (ErrorCode.new 1001 "missing %s") "user").code = 1001 :=
  (throw_tips_spec (ErrorCode.new 1001 "missing %s") "user").2.2.2.2.2
    (by decide) (by decide)

/-- C6: `success v` builds the envelope with `code = 200`, `data = v` and
the localized success message, and its conversion has transport status 200
and serializes with `code` 200, the payload in the `data` slot and the
success token as `msg`. -/
theorem success_spec {T : Type} (serT : T → String) (d : Option T) :
    success d = { code := 200, data := d, msg := "成功" } ∧
    ((success d).respond_to serT).status = 200 ∧
    ((success d).respond_to serT).body =
      "\x7b\"code\":200,\"data\":" ++
        ((serOptionJson serT d).render ++ ",\"msg\":\"成功\"\x7d") := by
  refine ⟨rfl, rfl, ?_⟩
  simp only [Response.respond_to, Response.body_json, Response.fields, success,
    renderObj, List.map, joinComma, renderField, Json.render, jsonString,
    string_append_assoc]
  rfl

/-- C7: `error v` builds the envelope with the struct-default `code = 0`,
`data = v` and the localized failure message, and its conversion has
transport status 200 and serializes with `code` 0, the payload in the
`data` slot and the failure token as `msg`. -/
theorem error_spec {T : Type} (serT : T → String) (d : Option T) :
    error d = { code := 0, data := d, msg := "失败" } ∧
    ((error d).respond_to serT).status = 200 ∧
    ((error d).respond_to serT).body =
      "\x7b\"code\":0,\"data\":" ++
        ((serOptionJson serT d).render ++ ",\"msg\":\"失败\"\x7d") := by
  refine ⟨rfl, rfl, ?_⟩
  simp only [Response.respond_to, Response.body_json, Response.fields, error,
    Response.defaultValue, renderObj, List.map, joinComma, renderField,
    Json.render, jsonString, string_append_assoc]
  rfl

/-- C8: `unauthorized` yields the same fixed wire response for every
declared payload type: transport status 200, JSON content type, and a body
with `code` 0, `data` null and the localized no-permission token as
`msg`. -/
theorem unauthorized_spec (T T2 : Type) :
    unauthorized T = unauthorized T2 ∧
    (unauthorized T).status = 200 ∧
    (unauthorized T).contentType = ContentType.json ∧
    (unauthorized T).body =
      "\x7b\"code\":0,\"data\":null,\"msg\":\"无权限访问\"\x7d" :=
  ⟨rfl, rfl, rfl, rfl⟩

/-- C9: `throw` and `throw_tips` store `ec.code()` reduced two's-complement
into the `i32` envelope field: the stored value is congruent to `ec.code()`
modulo 2^32, lies in `[-2^31, 2^31)`, and equals `ec.code()` exactly when
the latter lies within the `i32` range. -/
theorem throw_code_truncation (ec : ErrorCode) (r : String) :
    (throwEnvelope ec).code = wrapI32 ec.code ∧
    (throwTipsEnvelope ec r).code = wrapI32 ec.code ∧
    wrapI32 ec.code % 4294967296 = ec.code % 4294967296 ∧
    -2147483648 ≤ wrapI32 ec.code ∧ wrapI32 ec.code < 2147483648 ∧
    ((throwEnvelope ec).code = ec.code ↔
      -2147483648 ≤ ec.code ∧ ec.code < 2147483648) := by
  refine ⟨rfl, rfl, ?_, ?_, ?_, ?_⟩
  · simp only [wrapI32]
    split <;> omega
  · simp only [wrapI32]
    split <;> omega
  · simp only [wrapI32]
    split <;> omega
  · show wrapI32 ec.code = ec.code ↔ _
    simp only [wrapI32]
    split <;> omega

/-- C10: using an `ErrorCode` directly as an error response goes through a
second conversion path: HTTP status 400 (not transport success), content
type `text/html`, and a body that is the `Display` rendering
`"({code}, {message})"` rather than the JSON envelope produced by
`throw`. -/
theorem errorcode_error_response_spec (ec : ErrorCode) :
    ec.error_response =
      { status := 400, contentType := ContentType.html,
        body := "(" ++ toString ec.code ++ ", " ++ ec.message ++ ")" } ∧
    ContentType.html.essence = "text/html" ∧
    ec.error_response.status ≠ 200 ∧
    ec.error_response.contentType ≠ ContentType.json ∧
    ec.error_response.body ≠ (ErrorCode.throw ec).body := by
  refine ⟨rfl, rfl, show (400 : Nat) ≠ 200 by decide,
    show ContentType.html ≠ ContentType.json by decide, fun h => ?_⟩
  have h2 : (some '(' : Option Char) = some '\x7b' :=
    congrArg (fun s : String => s.data.head?) h
  exact absurd h2 (by decide)
